import Mathlib

/-!
Shallow embedding of the Zcash transaction builder interface declared in
`src/transaction_builder.h`.  The repository under verification ships only
the header: every function body (the `.cpp` translation unit) is absent, so
each behavioural definition below is modelled from the specification's
description of that operation, as indicated by its doc comment.  Opaque
cryptographic primitives (keys, witnesses, proofs, signatures) are treated
as black boxes per the specification's scope section: `uint256` values,
scripts, destinations and key material are modelled as natural numbers, and
amounts (`CAmount`, a signed 64-bit quantity in the source) as unbounded
integers, since none of the verified claims concern 64-bit overflow.
-/

/-- Amounts: `CAmount` is a signed 64-bit integer in the source; modelled as
an unbounded integer since no claim under study involves overflow. -/
abbrev CAmount := Int

/-- Width of the fixed Sprout JoinSplit spend-slot group (`ZC_NUM_JS_INPUTS`).
Modelled from the spec: the numeric constant is defined outside `src/`; the
header uses it as the fixed size of the caller-facing input array. -/
def ZC_NUM_JS_INPUTS : Nat := 2

/-- Width of the fixed Sprout JoinSplit output-slot group (`ZC_NUM_JS_OUTPUTS`).
Modelled from the spec, as for `ZC_NUM_JS_INPUTS`. -/
def ZC_NUM_JS_OUTPUTS : Nat := 2

/-- Modelled from the spec: a small fixed per-transaction limit on
oldest-pool (Sprout) spends, a historical consensus constraint.  The spec
does not name the numeric value; the descriptor-group width is used. -/
def sproutSpendLimitPerTx : Nat := 2

/-- The sentinel "no memo" value `NO_MEMO` (a 0xF6 lead byte); memo contents
are opaque to every claim, so a memo is modelled as a single number. -/
def NO_MEMO : Nat := 0xF6

/-- A Sapling note: destination plus value (other components are opaque
cryptographic material that no claim inspects). -/
structure SaplingNote where
  addr : Nat
  value : CAmount
deriving DecidableEq

/-- A Sprout note: destination plus value. -/
structure SproutNote where
  addr : Nat
  value : CAmount
deriving DecidableEq

/-- A Sprout witness; the only component the builder consults is the
commitment-tree root (the anchor) it authenticates against. -/
structure SproutWitness where
  root : Nat
deriving DecidableEq

/-- Per-pool value object holding what is needed to produce one Sapling
spend descriptor (`SpendDescriptionInfo` in the header). -/
structure SpendDescriptionInfo where
  expsk : Nat
  note : SaplingNote
  alpha : Nat
  anchor : Nat
  witness : Nat
deriving DecidableEq

/-- Modelled from the spec: the `SpendDescriptionInfo` constructor takes key
material, note, anchor and witness; the spend-authorizing randomizer `alpha`
is drawn internally from the process random source, which is out of scope,
so the model fixes it. -/
def mkSpendDescriptionInfo (expsk : Nat) (note : SaplingNote) (anchor : Nat)
    (witness : Nat) : SpendDescriptionInfo :=
  ⟨expsk, note, 0, anchor, witness⟩

/-- Per-pool value object for one Sapling output descriptor
(`OutputDescriptionInfo` in the header). -/
structure OutputDescriptionInfo where
  ovk : Nat
  note : SaplingNote
  memo : Nat
deriving DecidableEq

/-- One queued Sprout spend (`libzcash::JSInput`): witness, note and
spending key. -/
structure JSInput where
  witness : SproutWitness
  note : SproutNote
  key : Nat
deriving DecidableEq

/-- One queued Sprout output (`libzcash::JSOutput`): destination, value and
memo. -/
structure JSOutput where
  addr : Nat
  value : CAmount
  memo : Nat
deriving DecidableEq

/-- A transparent input's script and declared value
(`TransparentInputInfo` in the header). -/
structure TransparentInputInfo where
  scriptPubKey : Nat
  value : CAmount
deriving DecidableEq

/-- One Orchard output request queued inside the Orchard builder. -/
structure OrchardOutputReq where
  ovk : Option Nat
  addr : Nat
  value : CAmount
  memo : Option Nat
deriving DecidableEq

/-- An authorized Orchard bundle (the Rust-side `OrchardBundle`), recording
the fixed shape and the sighash it was authorized against. -/
structure OrchardBundle where
  outputsShape : List OrchardOutputReq
  sighash : Nat
deriving DecidableEq

namespace orchard

/-- Modelled from the spec: the Rust-allocated Orchard builder state behind
`OrchardBuilderPtr` — the enable flags and anchor fixed at construction,
plus the queued output requests. -/
structure BuilderInner where
  spendsEnabled : Bool
  outputsEnabled : Bool
  anchor : Nat
  outputs : List OrchardOutputReq
deriving DecidableEq

/-- `orchard::Builder`.  `inner = none` models the null `inner` pointer the
header documents: the builder has been consumed by `Build` and every
subsequent operation throws. -/
structure Builder where
  inner : Option BuilderInner
deriving DecidableEq

/-- `orchard::UnauthorizedBundle`: fixed shape awaiting proofs and
signatures; `inner = none` models the consumed (null) state. -/
structure UnauthorizedBundle where
  inner : Option BuilderInner
deriving DecidableEq

/-- The public `orchard::Builder` constructor: spends/outputs enable flags
and the single anchor, with no outputs queued yet. -/
def Builder.init (spendsEnabled outputsEnabled : Bool) (anchor : Nat) : Builder :=
  ⟨some ⟨spendsEnabled, outputsEnabled, anchor, []⟩⟩

/-- Modelled from the spec: `orchard::Builder::AddOutput` appends one output
request; per the header, any use of a consumed builder throws. -/
def Builder.AddOutput (b : Builder) (ovk : Option Nat) (addr : Nat)
    (value : CAmount) (memo : Option Nat) : Except String Builder :=
  match b.inner with
  | none => .error "orchard::Builder is used after it was consumed"
  | some i =>
      .ok ⟨some { i with outputs := i.outputs ++ [⟨ovk, addr, value, memo⟩] }⟩

/-- Modelled from the spec: `orchard::Builder::Build` consumes the builder
(the returned builder's `inner` is null, so later uses throw) and yields an
unauthorized bundle with the frozen shape; construction internals are
opaque crypto, modelled as succeeding. -/
def Builder.Build (b : Builder) :
    Except String (Builder × Option UnauthorizedBundle) :=
  match b.inner with
  | none => .error "orchard::Builder is used after it was consumed"
  | some i => .ok (⟨none⟩, some ⟨some i⟩)

/-- Modelled from the spec: `UnauthorizedBundle::ProveAndSign` consumes the
bundle and produces the authorized bundle for the given sighash; proof and
signature generation are opaque crypto, modelled as succeeding. -/
def UnauthorizedBundle.ProveAndSign (u : UnauthorizedBundle) (sighash : Nat) :
    Except String (UnauthorizedBundle × Option OrchardBundle) :=
  match u.inner with
  | none => .error "orchard::UnauthorizedBundle is used after it was consumed"
  | some i => .ok (⟨none⟩, some ⟨i.outputs, sighash⟩)

end orchard

/-- Non-authorization fields of a Sprout JoinSplit descriptor
(`JSDescription`): public values, anchor, per-spend nullifiers and
per-output note commitments.  Proofs/signatures are authorization data and
out of scope. -/
structure JSDescription where
  vpub_old : CAmount
  vpub_new : CAmount
  anchor : Nat
  nullifiers : List Nat
  commitments : List (Nat × CAmount)
deriving DecidableEq

/-- Modelled from the spec: the nullifier published for a Sprout spend is an
opaque deterministic function of the note and spending key; modelled as a
pairing of those components. -/
def JSInput.nullifier (i : JSInput) : Nat :=
  Nat.pair i.key i.note.addr

/-- `JSDescriptionInfo` from the header.  The C++ struct stores references
to the caller's fixed-size input/output arrays (so randomization is visible
to the caller); the model passes the arrays by value and returns the updated
struct, making that mutation explicit. -/
structure JSDescriptionInfo where
  joinSplitPubKey : Nat
  anchor : Nat
  inputs : List JSInput
  outputs : List JSOutput
  vpub_old : CAmount
  vpub_new : CAmount
deriving DecidableEq

/-- Modelled from the spec: the deterministic assembly path packs the
spends/outputs into one fixed-width descriptor group in caller order and
computes the non-authorization fields (proof computation is opaque and
elided). -/
def JSDescriptionInfo.BuildDeterministic (info : JSDescriptionInfo) :
    JSDescription :=
  { vpub_old := info.vpub_old
    vpub_new := info.vpub_new
    anchor := info.anchor
    nullifiers := info.inputs.map JSInput.nullifier
    commitments := info.outputs.map (fun o => (o.addr, o.value)) }

/-- Swap the entries at positions `i` and `j` of a list (identity when an
index is out of range). -/
def listSwap {α : Type} (l : List α) (i j : Nat) : List α :=
  match l.get? i, l.get? j with
  | some a, some b => (l.set i b).set j a
  | _, _ => l

/-- Modelled from the spec: the tandem Fisher-Yates shuffle behind
randomized assembly.  `gen k n` is the pluggable generator's reply to its
`k`-th call with exclusive bound `n`; a reply out of range trips the
defensive assertion, modelled as `none` (a fatal fault).  Walks index `i`
from high to low, swapping both the payload array and the slot map. -/
def mappedShuffleGo {α : Type} (gen : Nat → Nat → Nat) :
    Nat → List α → List Nat → Nat → Option (List α × List Nat × Nat)
  | k, arr, mp, 0 => some (arr, mp, k)
  | k, arr, mp, i + 1 =>
      let r := gen k (i + 2)
      if r ≤ i + 1 then
        mappedShuffleGo gen (k + 1) (listSwap arr (i + 1) r) (listSwap mp (i + 1) r) i
      else
        none

/-- Modelled from the spec: shuffle an array under the pluggable generator
starting at call counter `k`, returning the shuffled array, the slot map
(initially the identity map over the slot indices) and the next counter. -/
def mappedShuffle {α : Type} (gen : Nat → Nat → Nat) (k : Nat) (arr : List α) :
    Option (List α × List Nat × Nat) :=
  mappedShuffleGo gen k arr (List.range arr.length) (arr.length - 1)

/-- Everything `BuildRandomized` hands back: the descriptor, the
caller-visible state after the in-place randomization of the borrowed
arrays, the two slot maps, and the number of generator calls made. -/
structure JSRandomizedResult where
  desc : JSDescription
  info : JSDescriptionInfo
  inputMap : List Nat
  outputMap : List Nat
  genCalls : Nat
deriving DecidableEq

/-- Modelled from the spec: `JSDescriptionInfo::BuildRandomized` shuffles the
spend slots and then, with fresh draws from the same generator, the output
slots, records both slot maps through its out-parameters, leaves the
caller's arrays reordered (the struct stores references to them), and
builds the descriptor from the randomized layout via the deterministic
path.  `none` models the defensive-assertion fault on an out-of-range
generator reply. -/
def JSDescriptionInfo.BuildRandomized (info : JSDescriptionInfo)
    (gen : Nat → Nat → Nat) : Option JSRandomizedResult :=
  match mappedShuffle gen 0 info.inputs with
  | none => none
  | some (ins2, imap, k1) =>
      match mappedShuffle gen k1 info.outputs with
      | none => none
      | some (outs2, omap, k2) =>
          let info2 := { info with inputs := ins2, outputs := outs2 }
          some ⟨info2.BuildDeterministic, info2, imap, omap, k2⟩

/-- The assembled transaction, restricted to the fields the claims inspect:
per-pool outputs (destination and value), value balances, inputs and the
expiry height. -/
structure CTransaction where
  vin : List Nat
  vout : List (Nat × CAmount)
  saplingOutputs : List (Nat × CAmount)
  sproutOutputs : List (Nat × CAmount)
  orchardOutputs : List (Nat × CAmount)
  valueBalanceSapling : CAmount
  valueBalanceOrchard : CAmount
  expiryHeight : Nat
deriving DecidableEq

/-- `TransactionBuilderResult`: two private optionals, one holding a
finished transaction and one an error message. -/
structure TransactionBuilderResult where
  maybeTx : Option CTransaction
  maybeError : Option String
deriving DecidableEq

/-- The transaction-carrying constructor `TransactionBuilderResult(tx)`:
sets only the transaction optional. -/
def TransactionBuilderResult.fromTx (tx : CTransaction) :
    TransactionBuilderResult :=
  ⟨some tx, none⟩

/-- The error-carrying constructor `TransactionBuilderResult(error)`: sets
only the error optional. -/
def TransactionBuilderResult.fromError (e : String) :
    TransactionBuilderResult :=
  ⟨none, some e⟩

/-- The default constructor is deleted in the header; a result can only come
from one of the two public constructors.  This predicate characterizes the
constructible values. -/
inductive ResultConstructed : TransactionBuilderResult → Prop
  | tx (t : CTransaction) : ResultConstructed (TransactionBuilderResult.fromTx t)
  | err (e : String) : ResultConstructed (TransactionBuilderResult.fromError e)

/-- `TransactionBuilderResult::IsTx`. -/
def TransactionBuilderResult.IsTx (r : TransactionBuilderResult) : Bool :=
  r.maybeTx.isSome

/-- `TransactionBuilderResult::IsError`. -/
def TransactionBuilderResult.IsError (r : TransactionBuilderResult) : Bool :=
  r.maybeError.isSome

/-- Modelled from the spec: `GetTxOrThrow` returns the held transaction and
fails fatally (throws) when queried against an error-tagged result. -/
def TransactionBuilderResult.GetTxOrThrow (r : TransactionBuilderResult) :
    Except String CTransaction :=
  match r.maybeTx with
  | some tx => .ok tx
  | none => .error "TransactionBuilderResult does not hold a transaction"

/-- Modelled from the spec: `GetError` returns the held message and fails
fatally when queried against a transaction-tagged result. -/
def TransactionBuilderResult.GetError (r : TransactionBuilderResult) :
    Except String String :=
  match r.maybeError with
  | some e => .ok e
  | none => .error "TransactionBuilderResult does not hold an error"

/-- Whether a fallible computation ended in the thrown/fatal branch. -/
def isErr {ε α : Type} : Except ε α → Bool
  | .error _ => true
  | .ok _ => false

/-- The root `TransactionBuilder` state from the header: fee (defaulting to
the fixed conservative constant 10000), the optional Orchard sub-builder
and its running value balance, the queued per-pool descriptors, transparent
inputs/outputs, the three change destinations, and a consumed flag modelling
the single-use discipline of the builder (spec: the root builder is
permanently invalidated by `Build`). -/
structure TransactionBuilder where
  nHeight : Nat := 0
  expiryHeight : Nat := 0
  fee : CAmount := 10000
  orchardBuilder : Option orchard.Builder := none
  valueBalanceOrchard : CAmount := 0
  spends : List SpendDescriptionInfo := []
  outputs : List OutputDescriptionInfo := []
  jsInputs : List JSInput := []
  jsOutputs : List JSOutput := []
  tIns : List TransparentInputInfo := []
  vin : List Nat := []
  tOuts : List (Nat × CAmount) := []
  saplingChangeAddr : Option (Nat × Nat) := none
  sproutChangeAddr : Option Nat := none
  tChangeAddr : Option Nat := none
  consumed : Bool := false
deriving DecidableEq

/-- A recipient address accepted by `SendChangeTo`, restricted to the pools
for which the builder state carries a change destination. -/
inductive RecipientAddress where
  | transparent (d : Nat)
  | sapling (a : Nat)
deriving DecidableEq

/-- The four value pools. -/
inductive Pool where
  | transparent
  | sprout
  | sapling
  | orchard
deriving DecidableEq

/-- The fatal message thrown when a consumed root builder is used again. -/
def consumedMsg : String :=
  "TransactionBuilder is used after Build was called"

/-- Modelled from the spec: `SetExpiryHeight`; like every mutator, fatal on
a consumed builder. -/
def TransactionBuilder.SetExpiryHeight (tb : TransactionBuilder)
    (nExpiryHeight : Nat) : Except String TransactionBuilder :=
  if tb.consumed then .error consumedMsg
  else .ok { tb with expiryHeight := nExpiryHeight }

/-- Modelled from the spec: `SetFee` overrides the default fee constant. -/
def TransactionBuilder.SetFee (tb : TransactionBuilder) (fee : CAmount) :
    Except String TransactionBuilder :=
  if tb.consumed then .error consumedMsg
  else .ok { tb with fee := fee }

/-- Modelled from the spec: `AddOrchardOutput` forwards to the Orchard
sub-builder (fatal if none was configured) and debits the Orchard value
balance by the output value. -/
def TransactionBuilder.AddOrchardOutput (tb : TransactionBuilder)
    (ovk : Option Nat) (addr : Nat) (value : CAmount) (memo : Option Nat) :
    Except String TransactionBuilder :=
  if tb.consumed then .error consumedMsg
  else
    match tb.orchardBuilder with
    | none => .error "TransactionBuilder cannot add Orchard output without an Orchard builder"
    | some b =>
        match b.AddOutput ovk addr value memo with
        | .error e => .error e
        | .ok b2 =>
            .ok { tb with
                    orchardBuilder := some b2,
                    valueBalanceOrchard := tb.valueBalanceOrchard - value }

/-- Modelled from the spec, matching the header comment: `AddSaplingSpend`
throws if the anchor does not match the anchor used by previously-added
Sapling spends; otherwise it appends the spend descriptor. -/
def TransactionBuilder.AddSaplingSpend (tb : TransactionBuilder)
    (expsk : Nat) (note : SaplingNote) (anchor : Nat) (witness : Nat) :
    Except String TransactionBuilder :=
  if tb.consumed then .error consumedMsg
  else
    match tb.spends with
    | [] =>
        .ok { tb with spends := [mkSpendDescriptionInfo expsk note anchor witness] }
    | s :: _ =>
        if anchor ≠ s.anchor then
          .error "Anchor does not match previously-added Sapling spends."
        else
          .ok { tb with
                  spends := tb.spends ++ [mkSpendDescriptionInfo expsk note anchor witness] }

/-- Modelled from the spec: `AddSaplingOutput` appends one Sapling output
descriptor. -/
def TransactionBuilder.AddSaplingOutput (tb : TransactionBuilder)
    (ovk : Nat) (addr : Nat) (value : CAmount) (memo : Nat) :
    Except String TransactionBuilder :=
  if tb.consumed then .error consumedMsg
  else .ok { tb with outputs := tb.outputs ++ [⟨ovk, ⟨addr, value⟩, memo⟩] }

/-- Modelled from the spec, matching the header comment: `AddSproutInput`
throws if the witness root (the Sprout anchor) differs from that of
previously-added Sprout inputs, and additionally throws if the oldest
pool's fixed per-transaction spend limit would be exceeded. -/
def TransactionBuilder.AddSproutInput (tb : TransactionBuilder)
    (sk : Nat) (note : SproutNote) (witness : SproutWitness) :
    Except String TransactionBuilder :=
  if tb.consumed then .error consumedMsg
  else
    match tb.jsInputs with
    | [] => .ok { tb with jsInputs := [⟨witness, note, sk⟩] }
    | j :: _ =>
        if witness.root ≠ j.witness.root then
          .error "Anchor does not match previously-added Sprout spends."
        else if sproutSpendLimitPerTx < tb.jsInputs.length + 1 then
          .error "Too many Sprout spends for one transaction."
        else
          .ok { tb with jsInputs := tb.jsInputs ++ [⟨witness, note, sk⟩] }

/-- Modelled from the spec: `AddSproutOutput` appends one Sprout output
descriptor. -/
def TransactionBuilder.AddSproutOutput (tb : TransactionBuilder)
    (addr : Nat) (value : CAmount) (memo : Nat) :
    Except String TransactionBuilder :=
  if tb.consumed then .error consumedMsg
  else .ok { tb with jsOutputs := tb.jsOutputs ++ [⟨addr, value, memo⟩] }

/-- Modelled from the spec: `AddTransparentInput` records the outpoint and
the declared script/value pair, trusting the caller's value. -/
def TransactionBuilder.AddTransparentInput (tb : TransactionBuilder)
    (utxo : Nat) (scriptPubKey : Nat) (value : CAmount) :
    Except String TransactionBuilder :=
  if tb.consumed then .error consumedMsg
  else .ok { tb with vin := tb.vin ++ [utxo],
                     tIns := tb.tIns ++ [⟨scriptPubKey, value⟩] }

/-- Modelled from the spec: `AddTransparentOutput` fails on a negative
value and otherwise records the public output. -/
def TransactionBuilder.AddTransparentOutput (tb : TransactionBuilder)
    (dest : Nat) (value : CAmount) : Except String TransactionBuilder :=
  if tb.consumed then .error consumedMsg
  else if value < 0 then .error "Invalid amount, amount cannot be negative"
  else .ok { tb with tOuts := tb.tOuts ++ [(dest, value)] }

/-- Modelled from the spec: `SendChangeTo` designates the change
destination for the pool of the given recipient address, displacing any
previously active change policy (at most one is active). -/
def TransactionBuilder.SendChangeTo (tb : TransactionBuilder)
    (changeAddr : RecipientAddress) (ovk : Nat) :
    Except String TransactionBuilder :=
  if tb.consumed then .error consumedMsg
  else
    match changeAddr with
    | .transparent d =>
        .ok { tb with tChangeAddr := some d,
                      saplingChangeAddr := none, sproutChangeAddr := none }
    | .sapling a =>
        .ok { tb with saplingChangeAddr := some (ovk, a),
                      sproutChangeAddr := none, tChangeAddr := none }

/-- Modelled from the spec: `SendChangeToSprout` designates a Sprout change
destination, displacing any previously active change policy. -/
def TransactionBuilder.SendChangeToSprout (tb : TransactionBuilder)
    (changeAddr : Nat) : Except String TransactionBuilder :=
  if tb.consumed then .error consumedMsg
  else .ok { tb with sproutChangeAddr := some changeAddr,
                     saplingChangeAddr := none, tChangeAddr := none }

/-- The output requests queued in the Orchard sub-builder, as
destination/value pairs (empty when no builder is configured or it has been
consumed). -/
def orchardOutputList (tb : TransactionBuilder) : List (Nat × CAmount) :=
  match tb.orchardBuilder with
  | some ⟨some i⟩ => i.outputs.map (fun o => (o.addr, o.value))
  | _ => []

/-- Sum of all input values available to the builder: transparent inputs
plus shielded spend note values of every pool (the interface under study
offers no Orchard spend entry point, so Orchard contributes none). -/
def totalIn (tb : TransactionBuilder) : CAmount :=
  (tb.tIns.map TransparentInputInfo.value).sum
    + (tb.spends.map (fun s => s.note.value)).sum
    + (tb.jsInputs.map (fun j => j.note.value)).sum

/-- Sum of all queued output values across the four pools. -/
def totalOut (tb : TransactionBuilder) : CAmount :=
  (tb.tOuts.map Prod.snd).sum
    + (tb.outputs.map (fun o => o.note.value)).sum
    + (tb.jsOutputs.map JSOutput.value).sum
    + ((orchardOutputList tb).map Prod.snd).sum

/-- The remainder once every queued output and the fee are paid from the
inputs (spec step 2 of the build algorithm). -/
def changeAmount (tb : TransactionBuilder) : CAmount :=
  totalIn tb - totalOut tb - tb.fee

/-- Whether every queued Sapling spend shares the anchor of the first one
(the invariant `Build` re-checks). -/
def saplingAnchorConsistent (tb : TransactionBuilder) : Bool :=
  match tb.spends with
  | [] => true
  | s :: rest => rest.all (fun t => t.anchor == s.anchor)

/-- Whether every queued Sprout input shares the witness root of the first
one. -/
def sproutAnchorConsistent (tb : TransactionBuilder) : Bool :=
  match tb.jsInputs with
  | [] => true
  | j :: rest => rest.all (fun t => t.witness.root == j.witness.root)

/-- The pool designated to absorb positive change, following the builder's
preference order over the configured change destinations. -/
def changePoolOf (tb : TransactionBuilder) : Option Pool :=
  match tb.saplingChangeAddr with
  | some _ => some Pool.sapling
  | none =>
      match tb.sproutChangeAddr with
      | some _ => some Pool.sprout
      | none =>
          match tb.tChangeAddr with
          | some _ => some Pool.transparent
          | none => none

/-- Modelled from the spec: synthesize exactly one additional output of the
remainder value into the designated change pool; `none` when no change
destination is configured. -/
def addChangeOutput (tb : TransactionBuilder) (amt : CAmount) :
    Option TransactionBuilder :=
  match tb.saplingChangeAddr with
  | some (ovk, a) =>
      some { tb with outputs := tb.outputs ++ [⟨ovk, ⟨a, amt⟩, NO_MEMO⟩] }
  | none =>
      match tb.sproutChangeAddr with
      | some a =>
          some { tb with jsOutputs := tb.jsOutputs ++ [⟨a, amt, NO_MEMO⟩] }
      | none =>
          match tb.tChangeAddr with
          | some d => some { tb with tOuts := tb.tOuts ++ [(d, amt)] }
          | none => none

/-- Modelled from the spec: assemble the finished transaction from the
(possibly change-augmented) builder state.  Descriptor ordering inside the
Sprout groups and all proofs/signatures are below the granularity of the
claims; value balances are the per-pool nets. -/
def assembleTx (tb : TransactionBuilder) : CTransaction :=
  { vin := tb.vin
    vout := tb.tOuts
    saplingOutputs := tb.outputs.map (fun o => (o.note.addr, o.note.value))
    sproutOutputs := tb.jsOutputs.map (fun o => (o.addr, o.value))
    orchardOutputs := orchardOutputList tb
    valueBalanceSapling :=
      (tb.spends.map (fun s => s.note.value)).sum
        - (tb.outputs.map (fun o => o.note.value)).sum
    valueBalanceOrchard := tb.valueBalanceOrchard
    expiryHeight := tb.expiryHeight }

/-- Modelled from the spec, steps 1-3 then 4-10 of the `Build` algorithm:
re-check the per-pool anchor invariants, compute the remainder, fail with a
descriptive error result when the remainder is negative or positive with no
configured change destination, otherwise synthesize the single change
output when needed and assemble the finished transaction (per-descriptor
proof and signature generation are opaque crypto, modelled as
succeeding). -/
def buildCore (tb : TransactionBuilder) : TransactionBuilderResult :=
  if saplingAnchorConsistent tb = false then
    .fromError "Sapling anchor mismatch among spends"
  else if sproutAnchorConsistent tb = false then
    .fromError "Sprout anchor mismatch among inputs"
  else if changeAmount tb < 0 then
    .fromError "Change cannot be negative: insufficient funds for outputs and fee"
  else if 0 < changeAmount tb then
    match addChangeOutput tb (changeAmount tb) with
    | none => .fromError "Could not determine change address"
    | some tb2 => .fromTx (assembleTx tb2)
  else
    .fromTx (assembleTx tb)

/-- The builder with its single-use budget spent. -/
def markConsumed (tb : TransactionBuilder) : TransactionBuilder :=
  { tb with consumed := true }

/-- Modelled from the spec: the terminal `Build` operation.  A second call
on a consumed builder is a fatal contract violation (the thrown branch);
otherwise the builder is permanently consumed and an error-or-transaction
result is returned, never a fault. -/
def TransactionBuilder.Build (tb : TransactionBuilder) :
    Except String (TransactionBuilder × TransactionBuilderResult) :=
  if tb.consumed then .error consumedMsg
  else .ok (markConsumed tb, buildCore tb)

/-- The finished transaction `Build` yields, when it yields one. -/
def builtTxOf (tb : TransactionBuilder) : Option CTransaction :=
  match tb.Build with
  | .ok (_, r) => r.maybeTx
  | .error _ => none

/-- The output destination/value pairs of one pool of a transaction. -/
def poolOutputs (tx : CTransaction) : Pool → List (Nat × CAmount)
  | .transparent => tx.vout
  | .sprout => tx.sproutOutputs
  | .sapling => tx.saplingOutputs
  | .orchard => tx.orchardOutputs

/-- The per-pool output values of the transaction `Build` produces. -/
def builtPoolValues (tb : TransactionBuilder) (p : Pool) :
    Option (List CAmount) :=
  (builtTxOf tb).map (fun tx => (poolOutputs tx p).map Prod.snd)

/-- The per-pool output values queued in the builder before `Build`. -/
def queuedPoolValues (tb : TransactionBuilder) : Pool → List CAmount
  | .transparent => tb.tOuts.map Prod.snd
  | .sprout => tb.jsOutputs.map JSOutput.value
  | .sapling => tb.outputs.map (fun o => o.note.value)
  | .orchard => (orchardOutputList tb).map Prod.snd

/-- Whether the root terminal build succeeds and leaves the returned
builder consumed. -/
def rootBuildConsumes (tb : TransactionBuilder) : Bool :=
  match tb.Build with
  | .ok pr => pr.fst.consumed
  | .error _ => false

/-- Whether `orchard::Builder::Build` succeeds and leaves the returned
builder consumed (null inner). -/
def orchardBuildConsumes (b : orchard.Builder) : Bool :=
  match b.Build with
  | .ok pr => pr.fst.inner.isNone
  | .error _ => false

/-- Whether `ProveAndSign` succeeds and leaves the returned bundle consumed
(null inner). -/
def proveAndSignConsumes (u : orchard.UnauthorizedBundle) (sighash : Nat) :
    Bool :=
  match u.ProveAndSign sighash with
  | .ok pr => pr.fst.inner.isNone
  | .error _ => false

/-- Claim C6: every `TransactionBuilderResult` holds exactly one of a
finished transaction or an error message (never both, never neither), and
querying it through the accessor for the wrong tag fails fatally rather
than returning a value. -/
theorem result_exactly_one_tag (r : TransactionBuilderResult)
    (h : ResultConstructed r) :
    ((r.IsTx = true ∧ r.IsError = false) ∨ (r.IsTx = false ∧ r.IsError = true)) ∧
    (r.IsError = true → isErr r.GetTxOrThrow = true) ∧
    (r.IsTx = true → isErr r.GetError = true) := by
  cases h with
  | tx t =>
      simp [TransactionBuilderResult.fromTx, TransactionBuilderResult.IsTx,
        TransactionBuilderResult.IsError, TransactionBuilderResult.GetTxOrThrow,
        TransactionBuilderResult.GetError, isErr]
  | err e =>
      simp [TransactionBuilderResult.fromError, TransactionBuilderResult.IsTx,
        TransactionBuilderResult.IsError, TransactionBuilderResult.GetTxOrThrow,
        TransactionBuilderResult.GetError, isErr]

/-- Witness for claim C6, at a concrete error-tagged result. -/
theorem result_exactly_one_tag_witness :
    (((TransactionBuilderResult.fromError "no funds").IsTx = true ∧
        (TransactionBuilderResult.fromError "no funds").IsError = false) ∨
      ((TransactionBuilderResult.fromError "no funds").IsTx = false ∧
        (TransactionBuilderResult.fromError "no funds").IsError = true)) ∧
    ((TransactionBuilderResult.fromError "no funds").IsError = true →
      isErr (TransactionBuilderResult.fromError "no funds").GetTxOrThrow = true) ∧
    ((TransactionBuilderResult.fromError "no funds").IsTx = true →
      isErr (TransactionBuilderResult.fromError "no funds").GetError = true) :=
  result_exactly_one_tag _ (ResultConstructed.err "no funds")

/-- Claim C2: adding a shielded spend whose anchor differs from the anchor
of a previously added spend for the same pool fails immediately at the Add
call (it throws), before Build is ever invoked, for both the Sapling and
the Sprout add operations. -/
theorem add_spend_anchor_mismatch_throws
    (tb : TransactionBuilder) (hc : tb.consumed = false)
    (s0 : SpendDescriptionInfo) (srest : List SpendDescriptionInfo)
    (hs : tb.spends = s0 :: srest)
    (expsk : Nat) (note : SaplingNote) (anchor : Nat) (w : Nat)
    (hanchor : anchor ≠ s0.anchor)
    (j0 : JSInput) (jrest : List JSInput) (hj : tb.jsInputs = j0 :: jrest)
    (sk : Nat) (snote : SproutNote) (sw : SproutWitness)
    (hroot : sw.root ≠ j0.witness.root) :
    isErr (tb.AddSaplingSpend expsk note anchor w) = true ∧
    isErr (tb.AddSproutInput sk snote sw) = true := by
  constructor
  · simp [TransactionBuilder.AddSaplingSpend, hc, hs, hanchor, isErr]
  · simp [TransactionBuilder.AddSproutInput, hc, hj, hroot, isErr]

/-- Concrete builder with one Sapling spend at anchor 7 and one Sprout
input at anchor 9. -/
def tbAnchored : TransactionBuilder :=
  { spends := [mkSpendDescriptionInfo 1 ⟨2, 50⟩ 7 3],
    jsInputs := [⟨⟨9⟩, ⟨4, 40⟩, 5⟩] }

/-- Witness for claim C2: conflicting anchors 8 (Sapling) and 10 (Sprout)
are rejected at the Add call. -/
theorem add_spend_anchor_mismatch_throws_witness :
    tbAnchored.consumed = false ∧
    (8 : Nat) ≠ (mkSpendDescriptionInfo 1 ⟨2, 50⟩ 7 3).anchor ∧
    (SproutWitness.mk 10).root ≠ (SproutWitness.mk 9).root ∧
    isErr (tbAnchored.AddSaplingSpend 1 ⟨2, 60⟩ 8 3) = true ∧
    isErr (tbAnchored.AddSproutInput 5 ⟨4, 30⟩ ⟨10⟩) = true := by
  refine ⟨rfl, by decide, by decide, ?_⟩
  exact add_spend_anchor_mismatch_throws tbAnchored rfl _ _ rfl 1 ⟨2, 60⟩ 8 3
    (by decide) _ _ rfl 5 ⟨4, 30⟩ ⟨10⟩ (by decide)

/-- Claim C9: for the oldest pool generation (Sprout), adding a spend fails
at the Add call when the pool's spend count would exceed the small fixed
per-transaction limit. -/
theorem add_sprout_input_over_limit_throws
    (tb : TransactionBuilder) (hc : tb.consumed = false)
    (j0 : JSInput) (jrest : List JSInput) (hj : tb.jsInputs = j0 :: jrest)
    (hlen : sproutSpendLimitPerTx ≤ tb.jsInputs.length)
    (sk : Nat) (note : SproutNote) (w : SproutWitness) :
    isErr (tb.AddSproutInput sk note w) = true := by
  unfold TransactionBuilder.AddSproutInput
  rw [hj]
  simp only [hc, Bool.false_eq_true, if_false]
  by_cases hr : w.root ≠ j0.witness.root
  · simp [hr, isErr]
  · have hlim : sproutSpendLimitPerTx < jrest.length + 1 + 1 := by
      rw [hj] at hlen
      simp only [List.length_cons] at hlen
      omega
    simp [hr, hlim, isErr]

/-- Concrete builder already holding the limit-filling set of Sprout
inputs, all at anchor 9. -/
def tbSproutFull : TransactionBuilder :=
  { jsInputs := [⟨⟨9⟩, ⟨4, 40⟩, 5⟩, ⟨⟨9⟩, ⟨6, 30⟩, 7⟩] }

/-- Witness for claim C9: a third Sprout spend is rejected at the Add call. -/
theorem add_sprout_input_over_limit_throws_witness :
    tbSproutFull.consumed = false ∧
    sproutSpendLimitPerTx ≤ tbSproutFull.jsInputs.length ∧
    isErr (tbSproutFull.AddSproutInput 8 ⟨4, 20⟩ ⟨9⟩) = true := by
  refine ⟨rfl, by decide, ?_⟩
  exact add_sprout_input_over_limit_throws tbSproutFull rfl _ _ rfl (by decide)
    8 ⟨4, 20⟩ ⟨9⟩

/-- Claim C3: once the terminal build operation has been invoked on a
builder or bundle (the Orchard Builder's Build, ProveAndSign on the
unauthorized bundle, or the root Build), whether it succeeded or failed,
the object is permanently consumed: the terminal operation leaves the
object in the consumed state, and every subsequent mutation or build
attempt on a consumed object throws rather than silently succeeding. -/
theorem consumed_objects_reject_use
    (tb : TransactionBuilder) (hc : tb.consumed = true)
    (tb2 : TransactionBuilder) (hc2 : tb2.consumed = false)
    (b : orchard.Builder) (hb : b.inner = none)
    (b2 : orchard.Builder) (hb2 : b2.inner.isSome = true)
    (u : orchard.UnauthorizedBundle) (hu : u.inner = none)
    (u2 : orchard.UnauthorizedBundle) (hu2 : u2.inner.isSome = true)
    (eh : Nat) (fee : CAmount) (ovk : Nat) (addr : Nat) (value : CAmount)
    (memo : Nat) (expsk : Nat) (snote : SaplingNote) (anchor : Nat)
    (w : Nat) (sk : Nat) (jnote : SproutNote) (jw : SproutWitness)
    (utxo : Nat) (script : Nat) (ra : RecipientAddress) (sighash : Nat) :
    isErr (tb.SetExpiryHeight eh) = true ∧
    isErr (tb.SetFee fee) = true ∧
    isErr (tb.AddOrchardOutput (some ovk) addr value (some memo)) = true ∧
    isErr (tb.AddSaplingSpend expsk snote anchor w) = true ∧
    isErr (tb.AddSaplingOutput ovk addr value memo) = true ∧
    isErr (tb.AddSproutInput sk jnote jw) = true ∧
    isErr (tb.AddSproutOutput addr value memo) = true ∧
    isErr (tb.AddTransparentInput utxo script value) = true ∧
    isErr (tb.AddTransparentOutput addr value) = true ∧
    isErr (tb.SendChangeTo ra ovk) = true ∧
    isErr (tb.SendChangeToSprout addr) = true ∧
    isErr tb.Build = true ∧
    rootBuildConsumes tb2 = true ∧
    isErr (b.AddOutput (some ovk) addr value (some memo)) = true ∧
    isErr b.Build = true ∧
    orchardBuildConsumes b2 = true ∧
    isErr (u.ProveAndSign sighash) = true ∧
    proveAndSignConsumes u2 sighash = true := by
  obtain ⟨bi, hbi⟩ := Option.isSome_iff_exists.mp hb2
  obtain ⟨ui, hui⟩ := Option.isSome_iff_exists.mp hu2
  refine ⟨?_, ?_, ?_, ?_, ?_, ?_, ?_, ?_, ?_, ?_, ?_, ?_, ?_, ?_, ?_, ?_, ?_, ?_⟩
  · simp [TransactionBuilder.SetExpiryHeight, hc, isErr]
  · simp [TransactionBuilder.SetFee, hc, isErr]
  · simp [TransactionBuilder.AddOrchardOutput, hc, isErr]
  · simp [TransactionBuilder.AddSaplingSpend, hc, isErr]
  · simp [TransactionBuilder.AddSaplingOutput, hc, isErr]
  · simp [TransactionBuilder.AddSproutInput, hc, isErr]
  · simp [TransactionBuilder.AddSproutOutput, hc, isErr]
  · simp [TransactionBuilder.AddTransparentInput, hc, isErr]
  · simp [TransactionBuilder.AddTransparentOutput, hc, isErr]
  · simp [TransactionBuilder.SendChangeTo, hc, isErr]
  · simp [TransactionBuilder.SendChangeToSprout, hc, isErr]
  · simp [TransactionBuilder.Build, hc, isErr]
  · simp [rootBuildConsumes, TransactionBuilder.Build, hc2, markConsumed]
  · simp [orchard.Builder.AddOutput, hb, isErr]
  · simp [orchard.Builder.Build, hb, isErr]
  · simp [orchardBuildConsumes, orchard.Builder.Build, hbi]
  · simp [orchard.UnauthorizedBundle.ProveAndSign, hu, isErr]
  · simp [proveAndSignConsumes, orchard.UnauthorizedBundle.ProveAndSign, hui]

/-- A never-used default root builder. -/
def tbFresh : TransactionBuilder := {}

/-- A root builder whose terminal Build budget has been spent. -/
def tbUsed : TransactionBuilder := markConsumed {}

/-- A live Orchard sub-builder. -/
def orchardFresh : orchard.Builder := orchard.Builder.init true true 5

/-- An Orchard sub-builder already consumed by its Build. -/
def orchardUsed : orchard.Builder := ⟨none⟩

/-- A live unauthorized Orchard bundle. -/
def bundleFresh : orchard.UnauthorizedBundle := ⟨some ⟨true, true, 5, []⟩⟩

/-- An unauthorized Orchard bundle already consumed by ProveAndSign. -/
def bundleUsed : orchard.UnauthorizedBundle := ⟨none⟩

/-- Witness for claim C3 at concrete consumed and live objects. -/
theorem consumed_objects_reject_use_witness :
    tbUsed.consumed = true ∧
    tbFresh.consumed = false ∧
    orchardUsed.inner = none ∧
    orchardFresh.inner.isSome = true ∧
    bundleUsed.inner = none ∧
    bundleFresh.inner.isSome = true ∧
    (isErr (tbUsed.SetExpiryHeight 100) = true ∧
     isErr (tbUsed.SetFee 1000) = true ∧
     isErr (tbUsed.AddOrchardOutput (some 1) 2 30 (some NO_MEMO)) = true ∧
     isErr (tbUsed.AddSaplingSpend 1 ⟨2, 50⟩ 7 3) = true ∧
     isErr (tbUsed.AddSaplingOutput 1 2 30 NO_MEMO) = true ∧
     isErr (tbUsed.AddSproutInput 1 ⟨4, 40⟩ ⟨9⟩) = true ∧
     isErr (tbUsed.AddSproutOutput 2 30 NO_MEMO) = true ∧
     isErr (tbUsed.AddTransparentInput 6 5 30) = true ∧
     isErr (tbUsed.AddTransparentOutput 2 30) = true ∧
     isErr (tbUsed.SendChangeTo (RecipientAddress.sapling 3) 1) = true ∧
     isErr (tbUsed.SendChangeToSprout 2) = true ∧
     isErr tbUsed.Build = true ∧
     rootBuildConsumes tbFresh = true ∧
     isErr (orchardUsed.AddOutput (some 1) 2 30 (some NO_MEMO)) = true ∧
     isErr orchardUsed.Build = true ∧
     orchardBuildConsumes orchardFresh = true ∧
     isErr (bundleUsed.ProveAndSign 77) = true ∧
     proveAndSignConsumes bundleFresh 77 = true) := by
  refine ⟨rfl, rfl, rfl, rfl, rfl, rfl, ?_⟩
  exact consumed_objects_reject_use tbUsed rfl tbFresh rfl orchardUsed rfl
    orchardFresh rfl bundleUsed rfl bundleFresh rfl
    100 1000 1 2 30 NO_MEMO 1 ⟨2, 50⟩ 7 3 1 ⟨4, 40⟩ ⟨9⟩ 6 5
    (RecipientAddress.sapling 3) 77

/-- When no change destination at all is configured, change synthesis has
nowhere to go. -/
theorem addChangeOutput_eq_none (tb : TransactionBuilder) (amt : CAmount)
    (h : changePoolOf tb = none) : addChangeOutput tb amt = none := by
  unfold changePoolOf at h
  unfold addChangeOutput
  rcases hs : tb.saplingChangeAddr with _ | p
  · rw [hs] at h
    rcases hp : tb.sproutChangeAddr with _ | q
    · rw [hp] at h
      rcases ht : tb.tChangeAddr with _ | d
      · simp
      · rw [ht] at h; simp at h
    · rw [hp] at h; simp at h
  · rw [hs] at h; simp at h

/-- Claim C1: for every configuration where total inputs do not equal total
outputs plus fee and no configured change path can absorb the discrepancy,
Build returns an error-tagged result with a descriptive message, and never
raises a fatal fault. -/
theorem build_unbalanced_returns_error
    (tb : TransactionBuilder) (hc : tb.consumed = false)
    (hne : changeAmount tb ≠ 0)
    (habsorb : changeAmount tb < 0 ∨ changePoolOf tb = none) :
    tb.Build = Except.ok (markConsumed tb, buildCore tb) ∧
    (buildCore tb).IsError = true ∧
    (buildCore tb).maybeError.getD "" ≠ "" := by
  have hcore : ∃ e, buildCore tb = TransactionBuilderResult.fromError e ∧ e ≠ "" := by
    unfold buildCore
    by_cases h1 : saplingAnchorConsistent tb = false
    · refine ⟨"Sapling anchor mismatch among spends", ?_, by decide⟩
      simp [h1]
    · by_cases h2 : sproutAnchorConsistent tb = false
      · refine ⟨"Sprout anchor mismatch among inputs", ?_, by decide⟩
        simp [h1, h2]
      · by_cases h3 : changeAmount tb < 0
        · refine ⟨"Change cannot be negative: insufficient funds for outputs and fee", ?_, by decide⟩
          simp [h1, h2, h3]
        · have hpool : changePoolOf tb = none := by
            rcases habsorb with hneg | hnone
            · exact absurd hneg h3
            · exact hnone
          have h4 : 0 < changeAmount tb :=
            lt_of_le_of_ne (not_lt.mp h3) (Ne.symm hne)
          refine ⟨"Could not determine change address", ?_, by decide⟩
          simp [h1, h2, h3, h4, addChangeOutput_eq_none tb (changeAmount tb) hpool]
  obtain ⟨e, he, hnee⟩ := hcore
  refine ⟨by simp [TransactionBuilder.Build, hc], ?_, ?_⟩
  · rw [he]; simp [TransactionBuilderResult.fromError, TransactionBuilderResult.IsError]
  · rw [he]; simpa [TransactionBuilderResult.fromError] using hnee

/-- Concrete underfunded builder: 1000 in, 90000 out, default fee, no
change destination. -/
def tbPoor : TransactionBuilder :=
  { tIns := [⟨0, 1000⟩],
    outputs := [⟨0, ⟨1, 90000⟩, NO_MEMO⟩] }

/-- Witness for claim C1: the underfunded build yields an error result, not
a fault. -/
theorem build_unbalanced_returns_error_witness :
    tbPoor.consumed = false ∧
    changeAmount tbPoor ≠ 0 ∧
    changeAmount tbPoor < 0 ∧
    (tbPoor.Build = Except.ok (markConsumed tbPoor, buildCore tbPoor) ∧
     (buildCore tbPoor).IsError = true ∧
     (buildCore tbPoor).maybeError.getD "" ≠ "") := by
  refine ⟨rfl, by decide, by decide, ?_⟩
  exact build_unbalanced_returns_error tbPoor rfl (by decide) (Or.inl (by decide))

/-- Claim C5: for every configuration where total inputs equal total
outputs plus fee exactly, Build succeeds and the finished transaction
contains no synthesized change output in any pool. -/
theorem build_exact_balance_no_change
    (tb : TransactionBuilder) (hc : tb.consumed = false)
    (hsap : saplingAnchorConsistent tb = true)
    (hspr : sproutAnchorConsistent tb = true)
    (hbal : changeAmount tb = 0) :
    (builtTxOf tb).isSome = true ∧
    builtPoolValues tb Pool.transparent = some (queuedPoolValues tb Pool.transparent) ∧
    builtPoolValues tb Pool.sprout = some (queuedPoolValues tb Pool.sprout) ∧
    builtPoolValues tb Pool.sapling = some (queuedPoolValues tb Pool.sapling) ∧
    builtPoolValues tb Pool.orchard = some (queuedPoolValues tb Pool.orchard) := by
  have hcore : buildCore tb = TransactionBuilderResult.fromTx (assembleTx tb) := by
    unfold buildCore
    rw [hsap, hspr, hbal]
    simp
  have hbuilt : builtTxOf tb = some (assembleTx tb) := by
    unfold builtTxOf
    simp [TransactionBuilder.Build, hc, hcore, TransactionBuilderResult.fromTx]
  refine ⟨by simp [hbuilt], ?_, ?_, ?_, ?_⟩ <;>
    simp [builtPoolValues, hbuilt, poolOutputs, assembleTx, queuedPoolValues,
      List.map_map, Function.comp]

/-- Concrete exactly-balanced builder: 100000 in, 90000 Sapling out,
default fee 10000, no change destination. -/
def tbBalanced : TransactionBuilder :=
  { tIns := [⟨0, 100000⟩],
    outputs := [⟨0, ⟨1, 90000⟩, NO_MEMO⟩] }

/-- Witness for claim C5: the balanced build succeeds with no synthesized
change output anywhere. -/
theorem build_exact_balance_no_change_witness :
    tbBalanced.consumed = false ∧
    changeAmount tbBalanced = 0 ∧
    ((builtTxOf tbBalanced).isSome = true ∧
     builtPoolValues tbBalanced Pool.transparent = some (queuedPoolValues tbBalanced Pool.transparent) ∧
     builtPoolValues tbBalanced Pool.sprout = some (queuedPoolValues tbBalanced Pool.sprout) ∧
     builtPoolValues tbBalanced Pool.sapling = some (queuedPoolValues tbBalanced Pool.sapling) ∧
     builtPoolValues tbBalanced Pool.orchard = some (queuedPoolValues tbBalanced Pool.orchard)) := by
  refine ⟨rfl, by decide, ?_⟩
  exact build_exact_balance_no_change tbBalanced rfl rfl rfl (by decide)

/-- Claim C4: whenever total inputs exceed total outputs plus fee by a
positive remainder and a change destination is configured, Build succeeds
and the finished transaction contains exactly one synthesized additional
output, of exactly the remainder value, in the designated change pool
(every other pool keeps exactly its queued outputs). -/
theorem build_positive_change_one_output
    (tb : TransactionBuilder) (hc : tb.consumed = false)
    (hsap : saplingAnchorConsistent tb = true)
    (hspr : sproutAnchorConsistent tb = true)
    (hpos : 0 < changeAmount tb)
    (hdest : (changePoolOf tb).isSome = true) :
    (builtTxOf tb).isSome = true ∧
    builtPoolValues tb Pool.transparent =
      some (queuedPoolValues tb Pool.transparent ++
        (if changePoolOf tb = some Pool.transparent then [changeAmount tb] else [])) ∧
    builtPoolValues tb Pool.sprout =
      some (queuedPoolValues tb Pool.sprout ++
        (if changePoolOf tb = some Pool.sprout then [changeAmount tb] else [])) ∧
    builtPoolValues tb Pool.sapling =
      some (queuedPoolValues tb Pool.sapling ++
        (if changePoolOf tb = some Pool.sapling then [changeAmount tb] else [])) ∧
    builtPoolValues tb Pool.orchard =
      some (queuedPoolValues tb Pool.orchard ++
        (if changePoolOf tb = some Pool.orchard then [changeAmount tb] else [])) := by
  have h3 : ¬ changeAmount tb < 0 := not_lt.mpr (le_of_lt hpos)
  rcases hs : tb.saplingChangeAddr with _ | p
  · rcases hp : tb.sproutChangeAddr with _ | q
    · rcases ht : tb.tChangeAddr with _ | d
      · exfalso
        simp [changePoolOf, hs, hp, ht] at hdest
      · have hchange : changePoolOf tb = some Pool.transparent := by
          simp [changePoolOf, hs, hp, ht]
        have hcore : buildCore tb =
            TransactionBuilderResult.fromTx
              (assembleTx { tb with tOuts := tb.tOuts ++ [(d, changeAmount tb)] }) := by
          unfold buildCore
          rw [hsap, hspr]
          simp [h3, hpos, addChangeOutput, hs, hp, ht]
        have hbuilt : builtTxOf tb =
            some (assembleTx { tb with tOuts := tb.tOuts ++ [(d, changeAmount tb)] }) := by
          unfold builtTxOf
          simp [TransactionBuilder.Build, hc, hcore, TransactionBuilderResult.fromTx]
        refine ⟨by simp [hbuilt], ?_, ?_, ?_, ?_⟩ <;>
          simp [builtPoolValues, hbuilt, poolOutputs, assembleTx, queuedPoolValues,
            orchardOutputList, hchange, List.map_map, Function.comp]
    · have hchange : changePoolOf tb = some Pool.sprout := by
        simp [changePoolOf, hs, hp]
      have hcore : buildCore tb =
          TransactionBuilderResult.fromTx
            (assembleTx { tb with
              jsOutputs := tb.jsOutputs ++ [⟨q, changeAmount tb, NO_MEMO⟩] }) := by
        unfold buildCore
        rw [hsap, hspr]
        simp [h3, hpos, addChangeOutput, hs, hp]
      have hbuilt : builtTxOf tb =
          some (assembleTx { tb with
            jsOutputs := tb.jsOutputs ++ [⟨q, changeAmount tb, NO_MEMO⟩] }) := by
        unfold builtTxOf
        simp [TransactionBuilder.Build, hc, hcore, TransactionBuilderResult.fromTx]
      refine ⟨by simp [hbuilt], ?_, ?_, ?_, ?_⟩ <;>
        simp [builtPoolValues, hbuilt, poolOutputs, assembleTx, queuedPoolValues,
          orchardOutputList, hchange, List.map_map, Function.comp]
  · obtain ⟨ovk, a⟩ := p
    have hchange : changePoolOf tb = some Pool.sapling := by
      simp [changePoolOf, hs]
    have hcore : buildCore tb =
        TransactionBuilderResult.fromTx
          (assembleTx { tb with
            outputs := tb.outputs ++ [⟨ovk, ⟨a, changeAmount tb⟩, NO_MEMO⟩] }) := by
      unfold buildCore
      rw [hsap, hspr]
      simp [h3, hpos, addChangeOutput, hs]
    have hbuilt : builtTxOf tb =
        some (assembleTx { tb with
          outputs := tb.outputs ++ [⟨ovk, ⟨a, changeAmount tb⟩, NO_MEMO⟩] }) := by
      unfold builtTxOf
      simp [TransactionBuilder.Build, hc, hcore, TransactionBuilderResult.fromTx]
    refine ⟨by simp [hbuilt], ?_, ?_, ?_, ?_⟩ <;>
      simp [builtPoolValues, hbuilt, poolOutputs, assembleTx, queuedPoolValues,
        orchardOutputList, hchange, List.map_map, Function.comp]

/-- Concrete overfunded builder: 100000 in, 85000 Sapling out, default fee
10000 and a Sapling change destination, leaving a remainder of 5000. -/
def tbOverfunded : TransactionBuilder :=
  { tIns := [⟨0, 100000⟩],
    outputs := [⟨0, ⟨1, 85000⟩, NO_MEMO⟩],
    saplingChangeAddr := some (7, 9) }

/-- Witness for claim C4: the overfunded build succeeds and synthesizes the
single 5000-unit change output into the Sapling pool only. -/
theorem build_positive_change_one_output_witness :
    tbOverfunded.consumed = false ∧
    0 < changeAmount tbOverfunded ∧
    (changePoolOf tbOverfunded).isSome = true ∧
    ((builtTxOf tbOverfunded).isSome = true ∧
     builtPoolValues tbOverfunded Pool.transparent =
       some (queuedPoolValues tbOverfunded Pool.transparent ++
         (if changePoolOf tbOverfunded = some Pool.transparent then [changeAmount tbOverfunded] else [])) ∧
     builtPoolValues tbOverfunded Pool.sprout =
       some (queuedPoolValues tbOverfunded Pool.sprout ++
         (if changePoolOf tbOverfunded = some Pool.sprout then [changeAmount tbOverfunded] else [])) ∧
     builtPoolValues tbOverfunded Pool.sapling =
       some (queuedPoolValues tbOverfunded Pool.sapling ++
         (if changePoolOf tbOverfunded = some Pool.sapling then [changeAmount tbOverfunded] else [])) ∧
     builtPoolValues tbOverfunded Pool.orchard =
       some (queuedPoolValues tbOverfunded Pool.orchard ++
         (if changePoolOf tbOverfunded = some Pool.orchard then [changeAmount tbOverfunded] else []))) := by
  refine ⟨rfl, by decide, by decide, ?_⟩
  exact build_positive_change_one_output tbOverfunded rfl rfl rfl (by decide) (by decide)

/-- A list of length two is literally a two-element list. -/
theorem length_two_pair {α : Type} {l : List α} (h : l.length = 2) :
    ∃ a b, l = [a, b] := by
  cases l with
  | nil => simp at h
  | cons a t =>
    cases t with
    | nil => simp at h
    | cons b t2 =>
      cases t2 with
      | nil => exact ⟨a, b, rfl⟩
      | cons c t3 => simp at h

/-- Characterization of the tandem shuffle on a two-slot group: the single
generator draw either keeps the layout (reply 1) or transposes it
(reply 0); any other reply trips the defensive assertion. -/
theorem mappedShuffle_two {α : Type} (g : Nat → Nat → Nat) (k : Nat) (a b : α)
    (out : List α × List Nat × Nat)
    (h : mappedShuffle g k [a, b] = some out) :
    (g k 2 = 1 ∧ out = ([a, b], [0, 1], k + 1)) ∨
    (g k 2 = 0 ∧ out = ([b, a], [1, 0], k + 1)) := by
  have hrange : List.range 2 = [0, 1] := rfl
  unfold mappedShuffle at h
  simp only [List.length_cons, List.length_nil] at h
  rw [hrange] at h
  by_cases hr : g k 2 ≤ 1
  · have h01 : g k 2 = 0 ∨ g k 2 = 1 := by omega
    rcases h01 with h0 | h1
    · right
      refine ⟨h0, ?_⟩
      unfold mappedShuffleGo at h
      rw [h0] at h
      simp only [Nat.zero_le, if_true, listSwap, List.get?] at h
      unfold mappedShuffleGo at h
      simp only [Option.some.injEq] at h
      exact h.symm
    · left
      refine ⟨h1, ?_⟩
      unfold mappedShuffleGo at h
      rw [h1] at h
      simp only [Nat.le_refl, if_true, listSwap, List.get?] at h
      unfold mappedShuffleGo at h
      simp only [Option.some.injEq] at h
      exact h.symm
  · exfalso
    unfold mappedShuffleGo at h
    rw [if_neg hr] at h
    exact Option.noConfusion h

/-- Full characterization of randomized assembly on the fixed two-slot
groups: each shuffle independently keeps or transposes its group, the slot
maps record which happened, and the descriptor is built from the
randomized layout. -/
theorem buildRandomized_two_char
    (info : JSDescriptionInfo) (g : Nat → Nat → Nat)
    (a b : JSInput) (c d : JSOutput)
    (hin : info.inputs = [a, b]) (hout : info.outputs = [c, d])
    (res : JSRandomizedResult)
    (hres : info.BuildRandomized g = some res) :
    ((res.info.inputs = [a, b] ∧ res.inputMap = [0, 1]) ∨
     (res.info.inputs = [b, a] ∧ res.inputMap = [1, 0])) ∧
    ((res.info.outputs = [c, d] ∧ res.outputMap = [0, 1]) ∨
     (res.info.outputs = [d, c] ∧ res.outputMap = [1, 0])) ∧
    res.desc = res.info.BuildDeterministic ∧
    res.genCalls = 2 := by
  unfold JSDescriptionInfo.BuildRandomized at hres
  rw [hin, hout] at hres
  rcases h1 : mappedShuffle g 0 [a, b] with _ | ⟨ins2, imap, k1⟩
  · rw [h1] at hres
    exact absurd hres (by simp)
  · rw [h1] at hres
    dsimp only at hres
    rcases h2 : mappedShuffle g k1 [c, d] with _ | ⟨outs2, omap, k2⟩
    · rw [h2] at hres
      exact absurd hres (by simp)
    · rw [h2] at hres
      dsimp only at hres
      simp only [Option.some.injEq] at hres
      subst hres
      rcases mappedShuffle_two g 0 a b _ h1 with ⟨hg1, hout1⟩ | ⟨hg1, hout1⟩ <;>
        rcases mappedShuffle_two g k1 c d _ h2 with ⟨hg2, hout2⟩ | ⟨hg2, hout2⟩ <;>
        simp only [Prod.mk.injEq] at hout1 hout2 <;>
        obtain ⟨hi1, hm1, hk1⟩ := hout1 <;>
        obtain ⟨ho2, hm2, hk2⟩ := hout2 <;>
        subst hi1 <;> subst hm1 <;> subst hk1 <;>
        subst ho2 <;> subst hm2 <;> subst hk2 <;>
        simp

/-- Claim C7: for a fixed set of Sprout inputs and outputs, two invocations
of randomized assembly with the same deterministic generator produce the
same permutation, the same logical-to-physical maps, and identical
non-authorization descriptor fields. -/
theorem buildRandomized_deterministic
    (info1 info2 : JSDescriptionInfo) (g1 g2 : Nat → Nat → Nat)
    (hinfo : info1 = info2) (hg : ∀ k n, g1 k n = g2 k n) :
    info1.BuildRandomized g1 = info2.BuildRandomized g2 := by
  subst hinfo
  have hfun : g1 = g2 := funext fun k => funext fun n => hg k n
  rw [hfun]

/-- A deterministic generator that always replies with the last slot (the
identity shuffle). -/
def genKeep : Nat → Nat → Nat := fun _ n => n - 1

/-- A pointwise-equal but syntactically different deterministic generator. -/
def genKeepAlso : Nat → Nat → Nat := fun _ n => (n - 1) + 0

/-- A deterministic generator that always replies 0 (the transposing
shuffle on a two-slot group). -/
def genSwap : Nat → Nat → Nat := fun _ _ => 0

/-- First concrete Sprout input of the witness scenario. -/
def inputA : JSInput := ⟨⟨11⟩, ⟨1, 10⟩, 2⟩

/-- Second concrete Sprout input of the witness scenario. -/
def inputB : JSInput := ⟨⟨11⟩, ⟨3, 20⟩, 4⟩

/-- First concrete Sprout output of the witness scenario. -/
def outputC : JSOutput := ⟨5, 15, NO_MEMO⟩

/-- Second concrete Sprout output of the witness scenario. -/
def outputD : JSOutput := ⟨6, 15, NO_MEMO⟩

/-- Concrete JoinSplit description info with full two-slot groups. -/
def infoW : JSDescriptionInfo :=
  ⟨0, 11, [inputA, inputB], [outputC, outputD], 0, 0⟩

/-- The witness info after both groups are transposed in place. -/
def infoWShuffled : JSDescriptionInfo :=
  ⟨0, 11, [inputB, inputA], [outputD, outputC], 0, 0⟩

/-- What randomized assembly returns on `infoW` under `genSwap`. -/
def resW : JSRandomizedResult :=
  ⟨infoWShuffled.BuildDeterministic, infoWShuffled, [1, 0], [1, 0], 2⟩

/-- Witness for claim C7: two runs under pointwise-equal deterministic
generators coincide. -/
theorem buildRandomized_deterministic_witness :
    infoW.BuildRandomized genKeep = infoW.BuildRandomized genKeepAlso :=
  buildRandomized_deterministic infoW infoW genKeep genKeepAlso rfl
    (fun _ _ => rfl)

/-- Claim C8: randomized assembly draws one permutation for the spend
slots and an independent one for the output slots, and hands back, through
its map out-parameters, an explicit map from each logical index to its
physical slot; each returned map is a permutation of the slot indices. -/
theorem buildRandomized_maps_are_permutations
    (info : JSDescriptionInfo) (g : Nat → Nat → Nat)
    (hin : info.inputs.length = ZC_NUM_JS_INPUTS)
    (hout : info.outputs.length = ZC_NUM_JS_OUTPUTS)
    (res : JSRandomizedResult)
    (hres : info.BuildRandomized g = some res) :
    res.inputMap.Perm (List.range ZC_NUM_JS_INPUTS) ∧
    res.outputMap.Perm (List.range ZC_NUM_JS_OUTPUTS) ∧
    res.info.inputs.get? (res.inputMap.getD 0 0) = info.inputs.get? 0 ∧
    res.info.inputs.get? (res.inputMap.getD 1 0) = info.inputs.get? 1 ∧
    res.info.outputs.get? (res.outputMap.getD 0 0) = info.outputs.get? 0 ∧
    res.info.outputs.get? (res.outputMap.getD 1 0) = info.outputs.get? 1 := by
  obtain ⟨a, b, hab⟩ := length_two_pair hin
  obtain ⟨c, d, hcd⟩ := length_two_pair hout
  obtain ⟨h1, h2, hdesc, hk⟩ := buildRandomized_two_char info g a b c d hab hcd res hres
  rw [hab, hcd]
  rcases h1 with ⟨hi, hm⟩ | ⟨hi, hm⟩ <;> rcases h2 with ⟨ho, hom⟩ | ⟨ho, hom⟩ <;>
    rw [hi, hm, ho, hom] <;>
    exact ⟨by decide, by decide, rfl, rfl, rfl, rfl⟩

/-- Witness for claim C8 at the concrete scenario where the transposing
generator swaps both groups. -/
theorem buildRandomized_maps_are_permutations_witness :
    infoW.inputs.length = ZC_NUM_JS_INPUTS ∧
    infoW.outputs.length = ZC_NUM_JS_OUTPUTS ∧
    infoW.BuildRandomized genSwap = some resW ∧
    (resW.inputMap.Perm (List.range ZC_NUM_JS_INPUTS) ∧
     resW.outputMap.Perm (List.range ZC_NUM_JS_OUTPUTS) ∧
     resW.info.inputs.get? (resW.inputMap.getD 0 0) = infoW.inputs.get? 0 ∧
     resW.info.inputs.get? (resW.inputMap.getD 1 0) = infoW.inputs.get? 1 ∧
     resW.info.outputs.get? (resW.outputMap.getD 0 0) = infoW.outputs.get? 0 ∧
     resW.info.outputs.get? (resW.outputMap.getD 1 0) = infoW.outputs.get? 1) := by
  refine ⟨rfl, rfl, rfl, ?_⟩
  exact buildRandomized_maps_are_permutations infoW genSwap rfl rfl resW rfl

/-- Claim C10: randomized assembly mutates the caller's state: the
description info borrows the caller's input/output arrays, so when it
returns, the caller's own arrays have been reordered in place into the
randomized physical slot order, as described by the returned maps — and the
descriptor itself is built from that reordered layout. -/
theorem buildRandomized_reorders_caller_arrays
    (info : JSDescriptionInfo) (g : Nat → Nat → Nat)
    (hin : info.inputs.length = ZC_NUM_JS_INPUTS)
    (hout : info.outputs.length = ZC_NUM_JS_OUTPUTS)
    (res : JSRandomizedResult)
    (hres : info.BuildRandomized g = some res) :
    res.info.inputs.get? 0 = info.inputs.get? (res.inputMap.getD 0 0) ∧
    res.info.inputs.get? 1 = info.inputs.get? (res.inputMap.getD 1 0) ∧
    res.info.outputs.get? 0 = info.outputs.get? (res.outputMap.getD 0 0) ∧
    res.info.outputs.get? 1 = info.outputs.get? (res.outputMap.getD 1 0) ∧
    res.info.inputs.Perm info.inputs ∧
    res.info.outputs.Perm info.outputs ∧
    res.desc = res.info.BuildDeterministic := by
  obtain ⟨a, b, hab⟩ := length_two_pair hin
  obtain ⟨c, d, hcd⟩ := length_two_pair hout
  obtain ⟨h1, h2, hdesc, hk⟩ := buildRandomized_two_char info g a b c d hab hcd res hres
  rw [hab, hcd]
  rcases h1 with ⟨hi, hm⟩ | ⟨hi, hm⟩ <;> rcases h2 with ⟨ho, hom⟩ | ⟨ho, hom⟩ <;>
    rw [hi, hm, ho, hom] <;>
    refine ⟨rfl, rfl, rfl, rfl, ?_, ?_, hdesc⟩ <;>
    first
      | exact List.Perm.refl _
      | exact List.Perm.swap _ _ _

/-- Witness for claim C10: under the transposing generator the caller's
arrays come back transposed, matching the returned maps. -/
theorem buildRandomized_reorders_caller_arrays_witness :
    infoW.inputs.length = ZC_NUM_JS_INPUTS ∧
    infoW.outputs.length = ZC_NUM_JS_OUTPUTS ∧
    infoW.BuildRandomized genSwap = some resW ∧
    resW.info.inputs ≠ infoW.inputs ∧
    (resW.info.inputs.get? 0 = infoW.inputs.get? (resW.inputMap.getD 0 0) ∧
     resW.info.inputs.get? 1 = infoW.inputs.get? (resW.inputMap.getD 1 0) ∧
     resW.info.outputs.get? 0 = infoW.outputs.get? (resW.outputMap.getD 0 0) ∧
     resW.info.outputs.get? 1 = infoW.outputs.get? (resW.outputMap.getD 1 0) ∧
     resW.info.inputs.Perm infoW.inputs ∧
     resW.info.outputs.Perm infoW.outputs ∧
     resW.desc = resW.info.BuildDeterministic) := by
  refine ⟨rfl, rfl, rfl, by decide, ?_⟩
  exact buildRandomized_reorders_caller_arrays infoW genSwap rfl rfl resW rfl
